import Mathlib

/-!
Verification development for a client-side fitness-tracking application.

The program keeps all state in a browser-local key-value store.  We embed
that store as a structure with one typed field per logical key (fixed keys
plus two keyed families, modelled as association lists), and each storage or
component operation as a pure function on that structure.  Timestamps are
naturals (milliseconds); weights are rationals (the UI edits them in 2.5
steps and parses floats); rep counts are naturals.
-/

namespace RepsAndRest

/-- Association-list write with localStorage semantics: replace the value at
the key if present (keeping position), otherwise append the new binding. -/
def setK {α : Type} : List (String × α) → String → α → List (String × α)
  | [], k, v => [(k, v)]
  | p :: rest, k, v => if p.1 = k then (k, v) :: rest else p :: setK rest k v

/-- Association-list read: first binding for the key, if any. -/
def lookupK {α : Type} (l : List (String × α)) (k : String) : Option α :=
  (l.find? (fun p => p.1 = k)).map (fun p => p.2)

/-- Association-list delete, localStorage removeItem semantics. -/
def removeK {α : Type} (l : List (String × α)) (k : String) : List (String × α) :=
  l.filter (fun p => p.1 ≠ k)

/-- Exercise of a workout template (storage.ts interface Exercise). -/
structure Exercise where
  id : String
  name : String
  sets : Nat
  lastWeight : Option ℚ := none
  lastReps : Option Nat := none
  lastDate : Option String := none
  deriving DecidableEq, Repr

/-- Named template: ordered exercise list (storage.ts interface WorkoutTemplate). -/
structure WorkoutTemplate where
  id : String
  name : String
  exercises : List Exercise
  deriving DecidableEq, Repr

/-- Rotating split (storage.ts interface WorkoutSplit). -/
structure WorkoutSplit where
  id : String
  name : String
  days : List String
  currentDay : Nat
  lastWorkoutDate : Option String
  deriving DecidableEq, Repr

/-- One set of a recorded session (storage.ts WorkoutSession.exercises[].sets[]). -/
structure SessSet where
  weight : ℚ
  reps : Nat
  completed : Bool
  deriving DecidableEq, Repr

/-- One exercise of a recorded session. -/
structure SessExercise where
  exerciseId : String
  name : String
  sets : List SessSet
  deriving DecidableEq, Repr

/-- Recorded workout session (storage.ts interface WorkoutSession). -/
structure WorkoutSession where
  id : String
  date : String
  workoutType : String
  exercises : List SessExercise
  completed : Bool
  deriving DecidableEq, Repr

/-- Exercise history entry, the value written by saveExerciseHistory and by
the legacy tracker save path: weight, reps and the session ISO date. -/
structure HistEntry where
  weight : ℚ
  reps : Nat
  date : String
  deriving DecidableEq, Repr

/-- In-progress tracker set (WorkoutTracker interface Set). -/
structure TSet where
  id : String
  weight : ℚ
  reps : Nat
  completed : Bool
  deriving DecidableEq, Repr

/-- In-progress tracker exercise (WorkoutTracker interface Exercise). -/
structure TExercise where
  id : String
  name : String
  defaultSets : Nat
  sets : List TSet
  lastWeight : Option ℚ := none
  lastReps : Option Nat := none
  deriving DecidableEq, Repr

/-- Auto-saved snapshot of an in-progress workout (autoSaveWorkout payload). -/
structure WorkoutSnapshot where
  exercises : List TExercise
  currentExerciseIndex : Nat
  sessionId : String
  deriving DecidableEq, Repr

/-- Payloads observed in the auto-save slots: the in-progress workout
snapshot and the exercise-manager template copy (storage.autoSave data). -/
inductive AutoPayload where
  | workout (s : WorkoutSnapshot)
  | template (t : WorkoutTemplate)
  deriving DecidableEq, Repr

/-- Auto-save wrapper: payload plus the write timestamp (Date.now). -/
structure AutoSlot (α : Type) where
  data : α
  timestamp : Nat
  deriving DecidableEq, Repr

/-- The browser-local store, one typed field per logical key.  Option models
key absence; the exercise-NAME, lastWorkout-NAME and autosave-KEY families
are association lists keyed by the variable part of the key. -/
structure Store where
  workoutTemplates : Option (List (String × WorkoutTemplate)) := none
  workoutSplits : Option (List WorkoutSplit) := none
  activeSplit : Option String := none
  workoutSplit : Option WorkoutSplit := none
  workoutSessions : Option (List WorkoutSession) := none
  exerciseHistory : List (String × HistEntry) := []
  lastWorkout : List (String × HistEntry) := []
  workoutStreak : Option Nat := none
  autosaves : List (String × AutoSlot AutoPayload) := []
  deriving DecidableEq, Repr

/-- Built-in default templates (storage.ts getWorkoutTemplates defaults). -/
def defaultTemplates : List (String × WorkoutTemplate) :=
  [("Push", { id := "push", name := "Push", exercises :=
      [{ id := "bench-press", name := "Bench Press", sets := 4 },
       { id := "overhead-press", name := "Overhead Press", sets := 3 },
       { id := "incline-db-press", name := "Incline Dumbbell Press", sets := 3 },
       { id := "tricep-dips", name := "Tricep Dips", sets := 3 },
       { id := "lateral-raises", name := "Lateral Raises", sets := 3 }] }),
   ("Pull", { id := "pull", name := "Pull", exercises :=
      [{ id := "deadlift", name := "Deadlift", sets := 4 },
       { id := "pull-ups", name := "Pull-ups", sets := 3 },
       { id := "barbell-rows", name := "Barbell Rows", sets := 3 },
       { id := "face-pulls", name := "Face Pulls", sets := 3 },
       { id := "bicep-curls", name := "Bicep Curls", sets := 3 }] }),
   ("Legs", { id := "legs", name := "Legs", exercises :=
      [{ id := "squats", name := "Squats", sets := 4 },
       { id := "romanian-deadlift", name := "Romanian Deadlift", sets := 3 },
       { id := "bulgarian-split-squats", name := "Bulgarian Split Squats", sets := 3 },
       { id := "calf-raises", name := "Calf Raises", sets := 3 },
       { id := "walking-lunges", name := "Walking Lunges", sets := 3 }] }),
   ("Upper", { id := "upper", name := "Upper", exercises :=
      [{ id := "bench-press", name := "Bench Press", sets := 4 },
       { id := "pull-ups", name := "Pull-ups", sets := 3 },
       { id := "overhead-press", name := "Overhead Press", sets := 3 },
       { id := "barbell-rows", name := "Barbell Rows", sets := 3 },
       { id := "dips", name := "Dips", sets := 3 }] }),
   ("Lower", { id := "lower", name := "Lower", exercises :=
      [{ id := "squats", name := "Squats", sets := 4 },
       { id := "deadlift", name := "Deadlift", sets := 4 },
       { id := "lunges", name := "Lunges", sets := 3 },
       { id := "leg-press", name := "Leg Press", sets := 3 },
       { id := "calf-raises", name := "Calf Raises", sets := 3 }] }),
   ("Full Body", { id := "full-body", name := "Full Body", exercises :=
      [{ id := "squats", name := "Squats", sets := 3 },
       { id := "bench-press", name := "Bench Press", sets := 3 },
       { id := "pull-ups", name := "Pull-ups", sets := 3 },
       { id := "overhead-press", name := "Overhead Press", sets := 3 },
       { id := "deadlift", name := "Deadlift", sets := 3 }] })]

/-- Built-in default splits (storage.ts getWorkoutSplits defaults). -/
def defaultSplits : List WorkoutSplit :=
  [{ id := "1", name := "Push/Pull/Legs",
     days := ["Push", "Pull", "Legs", "Rest", "Push", "Pull", "Legs"],
     currentDay := 0, lastWorkoutDate := none },
   { id := "2", name := "Upper/Lower",
     days := ["Upper", "Lower", "Rest", "Upper", "Lower", "Rest", "Rest"],
     currentDay := 0, lastWorkoutDate := none },
   { id := "3", name := "Full Body",
     days := ["Full Body", "Rest", "Full Body", "Rest", "Full Body", "Rest", "Rest"],
     currentDay := 0, lastWorkoutDate := none }]

/-- storage.getWorkoutTemplates: return the stored mapping, or materialize
and persist the defaults on first read.  Returns the mapping together with
the possibly-updated store. -/
def getWorkoutTemplates (st : Store) : List (String × WorkoutTemplate) × Store :=
  match st.workoutTemplates with
  | some t => (t, st)
  | none => (defaultTemplates, { st with workoutTemplates := some defaultTemplates })

/-- storage.saveWorkoutTemplates. -/
def saveWorkoutTemplates (st : Store) (ts : List (String × WorkoutTemplate)) : Store :=
  { st with workoutTemplates := some ts }

/-- storage.getWorkoutTemplate: point lookup against the mapping. -/
def getWorkoutTemplate (st : Store) (workoutType : String) :
    Option WorkoutTemplate × Store :=
  let (ts, st1) := getWorkoutTemplates st
  (lookupK ts workoutType, st1)

/-- storage.updateWorkoutTemplate: read the whole mapping, set one entry,
rewrite the whole mapping. -/
def updateWorkoutTemplate (st : Store) (workoutType : String)
    (template : WorkoutTemplate) : Store :=
  let (ts, st1) := getWorkoutTemplates st
  saveWorkoutTemplates st1 (setK ts workoutType template)

/-- storage.getExerciseHistory: read of the exercise-NAME key. -/
def getExerciseHistory (st : Store) (exerciseName : String) : Option HistEntry :=
  lookupK st.exerciseHistory exerciseName

/-- storage.saveExerciseHistory: write of the exercise-NAME key. -/
def saveExerciseHistory (st : Store) (exerciseName : String) (data : HistEntry) : Store :=
  { st with exerciseHistory := setK st.exerciseHistory exerciseName data }

/-- storage.getWorkoutSessions. -/
def getWorkoutSessions (st : Store) : List WorkoutSession :=
  st.workoutSessions.getD []

/-- Session list upsert of saveWorkoutSession: replace at the first index
with the same id, else push. -/
def upsertSession (sessions : List WorkoutSession) (s : WorkoutSession) :
    List WorkoutSession :=
  match sessions.findIdx? (fun x => x.id = s.id) with
  | some i => sessions.set i s
  | none => sessions ++ [s]

/-- History update loop of saveWorkoutSession: for every exercise in order,
for every set in order, if the set is completed overwrite that exercise
name's history entry with the set's weight/reps and the session date. -/
def sessionHistoryUpdate (hist : List (String × HistEntry)) (session : WorkoutSession) :
    List (String × HistEntry) :=
  session.exercises.foldl
    (fun h ex =>
      ex.sets.foldl
        (fun h2 s =>
          if s.completed then setK h2 ex.name ⟨s.weight, s.reps, session.date⟩ else h2)
        h)
    hist

/-- storage.saveWorkoutSession: upsert the session record, then run the
per-completed-set exercise-history overwrite loop. -/
def saveWorkoutSession (st : Store) (session : WorkoutSession) : Store :=
  let sessions := getWorkoutSessions st
  { st with
    workoutSessions := some (upsertSession sessions session),
    exerciseHistory := sessionHistoryUpdate st.exerciseHistory session }

/-- storage.getWorkoutSplits: stored list, or materialize the defaults. -/
def getWorkoutSplits (st : Store) : List WorkoutSplit × Store :=
  match st.workoutSplits with
  | some s => (s, st)
  | none => (defaultSplits, { st with workoutSplits := some defaultSplits })

/-- storage.saveWorkoutSplits. -/
def saveWorkoutSplits (st : Store) (splits : List WorkoutSplit) : Store :=
  { st with workoutSplits := some splits }

/-- storage.getActiveSplit: resolve the activeSplit id against the split
list (materializing defaults if the list is absent). -/
def getActiveSplit (st : Store) : Option WorkoutSplit × Store :=
  match st.activeSplit with
  | some activeSplitId =>
      let (splits, st1) := getWorkoutSplits st
      (splits.find? (fun s => s.id = activeSplitId), st1)
  | none => (none, st)

/-- storage.setActiveSplit: write the activeSplit id unconditionally, then
copy the referenced split into the workoutSplit mirror when it exists. -/
def setActiveSplit (st : Store) (splitId : String) : Store :=
  let st1 := { st with activeSplit := some splitId }
  let (splits, st2) := getWorkoutSplits st1
  match splits.find? (fun s => s.id = splitId) with
  | some split => { st2 with workoutSplit := some split }
  | none => st2

/-- storage.updateSplit: replace the split with the same id in the list and,
when it is the active one, also rewrite the workoutSplit mirror. -/
def updateSplit (st : Store) (updatedSplit : WorkoutSplit) : Store :=
  let (splits, st1) := getWorkoutSplits st
  match splits.findIdx? (fun s => s.id = updatedSplit.id) with
  | some i =>
      let st2 := saveWorkoutSplits st1 (splits.set i updatedSplit)
      if st2.activeSplit = some updatedSplit.id then
        { st2 with workoutSplit := some updatedSplit }
      else st2
  | none => st1

/-- storage.getStreak: parse of the workoutStreak key, defaulting to 0. -/
def getStreak (st : Store) : Nat :=
  st.workoutStreak.getD 0

/-- storage.updateStreak: read, add one, write back. -/
def updateStreak (st : Store) : Store :=
  { st with workoutStreak := some (getStreak st + 1) }

/-- storage.autoSave on a generic slot family: wrap the payload with the
current timestamp and write it under autosave-KEY. -/
def autoSaveSlots {α : Type} (slots : List (String × AutoSlot α)) (key : String)
    (data : α) (now : Nat) : List (String × AutoSlot α) :=
  setK slots key ⟨data, now⟩

/-- storage.getAutoSave on a generic slot family: return the payload only
when it is less than 24 hours old, else treat the slot as absent. -/
def getAutoSaveSlots {α : Type} (slots : List (String × AutoSlot α)) (key : String)
    (now : Nat) : Option α :=
  match lookupK slots key with
  | some saved => if now - saved.timestamp < 24 * 60 * 60 * 1000 then some saved.data else none
  | none => none

/-- storage.clearAutoSave on a generic slot family. -/
def clearAutoSaveSlots {α : Type} (slots : List (String × AutoSlot α)) (key : String) :
    List (String × AutoSlot α) :=
  removeK slots key

/-- storage.autoSave on the store. -/
def autoSaveStore (st : Store) (key : String) (data : AutoPayload) (now : Nat) : Store :=
  { st with autosaves := autoSaveSlots st.autosaves key data now }

/-- storage.clearAutoSave on the store. -/
def clearAutoSave (st : Store) (key : String) : Store :=
  { st with autosaves := clearAutoSaveSlots st.autosaves key }

/-! Session recorder (WorkoutTracker component, storage-based variant). -/

/-- Component state of the workout tracker: the per-exercise set lists, the
exercise cursor, and the rest-countdown observational state. -/
structure TrackerState where
  exercises : List TExercise
  currentExerciseIndex : Nat
  restTimer : Nat
  isResting : Bool
  deriving DecidableEq, Repr

/-- WorkoutTracker.completeSet: looks up the addressed set; rejects the
completion (leaving every piece of state untouched) when its weight or reps
is zero; otherwise marks exactly that set completed and starts the fixed
90-unit rest countdown.  An out-of-range index would fault in the source;
we model it as leaving the state unchanged and only reason about in-range
indices. -/
def completeSet (tr : TrackerState) (exerciseIndex setIndex : Nat) : TrackerState :=
  match tr.exercises[exerciseIndex]? with
  | none => tr
  | some exercise =>
    match exercise.sets[setIndex]? with
    | none => tr
    | some s =>
      if s.weight = 0 ∨ s.reps = 0 then tr
      else
        { tr with
          exercises := tr.exercises.mapIdx (fun eIndex ex =>
            if eIndex = exerciseIndex then
              { ex with sets := ex.sets.mapIdx (fun sIndex x =>
                  if sIndex = setIndex then { x with completed := true } else x) }
            else ex),
          restTimer := 90,
          isResting := true }

/-- Rest-countdown tick (the 1-second interval body): decrement the timer,
ending the rest automatically when it reaches zero. -/
def restTick (tr : TrackerState) : TrackerState :=
  if tr.isResting ∧ 0 < tr.restTimer then
    if tr.restTimer ≤ 1 then { tr with restTimer := 0, isResting := false }
    else { tr with restTimer := tr.restTimer - 1 }
  else tr

/-- Session record built by WorkoutTracker.saveWorkout from the tracker
state, marked completed. -/
def buildSession (sessionId date workoutType : String) (exs : List TExercise) :
    WorkoutSession :=
  { id := sessionId, date := date, workoutType := workoutType,
    exercises := exs.map (fun e =>
      { exerciseId := e.id, name := e.name,
        sets := e.sets.map (fun s => ⟨s.weight, s.reps, s.completed⟩) }),
    completed := true }

/-- Day advance performed by saveWorkout on the active split: next day
modulo the day-list length, stamping the workout date. -/
def sessionAdvance (sp : WorkoutSplit) (date : String) : WorkoutSplit :=
  { sp with currentDay := (sp.currentDay + 1) % sp.days.length,
            lastWorkoutDate := some date }

/-- WorkoutTracker.saveWorkout (storage-based variant): build and upsert the
session record, increment the streak, advance the active split by one day
through updateSplit, and clear the workout-type auto-save slot.  The
onComplete callback that follows is modelled separately. -/
def saveWorkout (st : Store) (tr : TrackerState) (sessionId date workoutType : String) :
    Store :=
  let session := buildSession sessionId date workoutType tr.exercises
  let st1 := saveWorkoutSession st session
  let st2 := updateStreak st1
  let (act, st3) := getActiveSplit st2
  let st4 :=
    match act with
    | some activeSplit => updateSplit st3 (sessionAdvance activeSplit date)
    | none => st3
  clearAutoSave st4 ("workout-" ++ workoutType)

/-- Index.handleCompleteWorkout: re-read the denormalized workoutSplit
mirror, advance its day by one more step, and write the mirror back (the
canonical workoutSplits list is not touched). -/
def handleCompleteWorkout (st : Store) (date : String) : Store :=
  match st.workoutSplit with
  | some split =>
      let updatedSplit : WorkoutSplit :=
        { split with currentDay := (split.currentDay + 1) % split.days.length,
                     lastWorkoutDate := some date }
      { st with workoutSplit := some updatedSplit }
  | none => st

/-- Full finalize pipeline: WorkoutTracker.saveWorkout followed by its
onComplete callback Index.handleCompleteWorkout. -/
def completePipeline (st : Store) (tr : TrackerState)
    (sessionId date workoutType : String) : Store :=
  handleCompleteWorkout (saveWorkout st tr sessionId date workoutType) date

/-- Legacy WorkoutTracker.saveWorkout (the variant wired into the page):
for every exercise with at least one completed set, write the last completed
set's weight/reps under the lastWorkout-NAME key, then increment the
streak. -/
def legacySaveWorkout (st : Store) (exs : List TExercise) (date : String) : Store :=
  let st1 :=
    exs.foldl
      (fun acc exercise =>
        let completedSets := exercise.sets.filter (fun s => s.completed)
        if completedSets.length > 0 then
          match completedSets.getLast? with
          | some lastSet =>
              let entry : HistEntry := ⟨lastSet.weight, lastSet.reps, date⟩
              { acc with lastWorkout := setK acc.lastWorkout exercise.name entry }
          | none => acc
        else acc)
      st
  { st1 with workoutStreak := some (getStreak st1 + 1) }

/-! Progress analytics (ProgressTracker component). -/

/-- ProgressTracker.getStreakColor: color tier of the streak counter. -/
def getStreakColor (streak : Nat) : String :=
  if streak ≥ 30 then "streak-gold"
  else if streak ≥ 14 then "success"
  else if streak ≥ 7 then "accent"
  else "primary"

/-- ProgressTracker.getStreakMessage: label tier of the streak counter. -/
def getStreakMessage (streak : Nat) : String :=
  if streak ≥ 30 then "Champion Level! 🏆"
  else if streak ≥ 14 then "On Fire! 🔥"
  else if streak ≥ 7 then "Building Momentum! 💪"
  else if streak ≥ 3 then "Getting Started! 🌟"
  else "Every Journey Begins! 🚀"

/-- ProgressTracker.calculateOneRepMax: Epley estimate, rounded the way
Math.round rounds (halves toward positive infinity, matching round on ℚ). -/
def calculateOneRepMax (weight : ℚ) (reps : Nat) : ℤ :=
  round (weight * (1 + (reps : ℚ) / 30))

/-- Fixed exercise list scanned by ProgressTracker.loadProgressData. -/
def progressExercises : List String :=
  ["Bench Press", "Deadlift", "Squats", "Overhead Press", "Pull-ups",
   "Barbell Rows", "Incline Dumbbell Press", "Romanian Deadlift"]

/-- Read side of ProgressTracker.loadProgressData: for each of the fixed
exercise names, the lastWorkout-NAME record if stored. -/
def loadLifts (st : Store) : List (String × HistEntry) :=
  progressExercises.filterMap (fun n => (lookupK st.lastWorkout n).map (fun d => (n, d)))

/-! Split manager (WorkoutSplitManager component). -/

/-- Component state of the split manager: the loaded split list, the active
split id, and the backing store. -/
structure ManagerState where
  splits : List WorkoutSplit
  activeSplit : Option String
  store : Store
  deriving DecidableEq, Repr

/-- Split-level day advance used by WorkoutSplitManager.skipDay: next day
modulo the day-list length. -/
def skipDayNext (sp : WorkoutSplit) : WorkoutSplit :=
  { sp with currentDay := (sp.currentDay + 1) % sp.days.length }

/-- WorkoutSplitManager.skipDay: advance the addressed split and persist it
through updateSplit, mirroring the change into component state. -/
def skipDay (ms : ManagerState) (splitId : String) : ManagerState :=
  match ms.splits.find? (fun s => s.id = splitId) with
  | some updatedSplit =>
      let newSplit := skipDayNext updatedSplit
      { ms with
        store := updateSplit ms.store newSplit,
        splits := ms.splits.map (fun s => if s.id = splitId then newSplit else s) }
  | none => ms

/-- WorkoutSplitManager.deleteSplit (the handler body): filter the split out
of the list, persist, and when it was the active one also clear the
activeSplit reference and the workoutSplit mirror. -/
def deleteSplitRaw (ms : ManagerState) (splitId : String) : ManagerState :=
  let newSplits := ms.splits.filter (fun split => split.id ≠ splitId)
  let st1 := saveWorkoutSplits ms.store newSplits
  if ms.activeSplit = some splitId then
    { splits := newSplits, activeSplit := none,
      store := { st1 with activeSplit := none, workoutSplit := none } }
  else
    { splits := newSplits, activeSplit := ms.activeSplit, store := st1 }

/-- Delete operation as exposed by the component: the per-split delete
button is disabled when exactly one split remains, so the handler is only
reachable otherwise. -/
def deleteSplitButton (ms : ManagerState) (splitId : String) : ManagerState :=
  if ms.splits.length = 1 then ms else deleteSplitRaw ms splitId

/-! Exercise manager (ExerciseManager component). -/

/-- ExerciseManager.saveTemplate: persist the template under the workout
type and refresh the exercise-manager auto-save slot. -/
def saveTemplateOp (st : Store) (workoutType : String) (template : WorkoutTemplate)
    (now : Nat) : Store :=
  let st1 := updateWorkoutTemplate st workoutType template
  autoSaveStore st1 ("exercise-manager-" ++ workoutType) (AutoPayload.template template) now

/-- ExerciseManager.resetToDefault: re-read the stored template mapping,
take its entry for the workout type, and when present save that entry back
via saveTemplate; when absent do nothing. -/
def resetToDefault (st : Store) (workoutType : String) (now : Nat) : Store :=
  let (templates, st1) := getWorkoutTemplates st
  match lookupK templates workoutType with
  | some defaultTemplate => saveTemplateOp st1 workoutType defaultTemplate now
  | none => st1

/-! Helper lemmas about the association-list store primitives. -/

theorem lookupK_cons {α : Type} (p : String × α) (l : List (String × α)) (k : String) :
    lookupK (p :: l) k = if p.1 = k then some p.2 else lookupK l k := by
  by_cases h : p.1 = k
  · rw [lookupK, List.find?_cons_of_pos _ (by simp [h]), if_pos h]; rfl
  · rw [lookupK, List.find?_cons_of_neg _ (by simp [h]), if_neg h, lookupK]

theorem lookupK_setK {α : Type} (l : List (String × α)) (k k' : String) (v : α) :
    lookupK (setK l k v) k' = if k = k' then some v else lookupK l k' := by
  induction l with
  | nil =>
      by_cases h : k = k' <;> simp [setK, lookupK_cons, lookupK, h]
  | cons p rest ih =>
      by_cases hp : p.1 = k
      · rw [setK, if_pos hp, lookupK_cons, lookupK_cons]
        by_cases h : k = k'
        · simp [h]
        · have : ¬ p.1 = k' := by rw [hp]; exact h
          simp [h, this]
      · rw [setK, if_neg hp, lookupK_cons, ih, lookupK_cons]
        by_cases h : k = k'
        · have : ¬ p.1 = k' := by rw [← h]; exact hp
          simp [h, this]
        · simp [h]

/-! Claim C5: day advance stays in range and cycles. -/

theorem skipDayNext_days (sp : WorkoutSplit) : (skipDayNext sp).days = sp.days := rfl

theorem iterate_skipDayNext_days (k : Nat) (sp : WorkoutSplit) :
    (skipDayNext^[k] sp).days = sp.days := by
  induction k with
  | zero => rfl
  | succ k ih => rw [Function.iterate_succ_apply', skipDayNext_days, ih]

theorem iterate_skipDayNext_currentDay (sp : WorkoutSplit)
    (hc : sp.currentDay < sp.days.length) (k : Nat) :
    (skipDayNext^[k] sp).currentDay = (sp.currentDay + k) % sp.days.length := by
  induction k with
  | zero => simpa using (Nat.mod_eq_of_lt hc).symm
  | succ k ih =>
      rw [Function.iterate_succ_apply']
      have hstep : (skipDayNext (skipDayNext^[k] sp)).currentDay
          = ((skipDayNext^[k] sp).currentDay + 1) % (skipDayNext^[k] sp).days.length := rfl
      rw [hstep, iterate_skipDayNext_days, ih, Nat.mod_add_mod, Nat.add_assoc]

/-- Claim C5: for every split with day-list length N at least 1 and
current-day index in the interval from 0 up to N, each advance (the skip-day
advance and the session-completion advance both) sets the index to
(index + 1) mod N; the index stays below N after any number of advances, and
N advances return it to its starting value. -/
theorem claim5_advance_cycles (sp : WorkoutSplit) (date : String) (k : Nat)
    (hN : 1 ≤ sp.days.length) (hc : sp.currentDay < sp.days.length) :
    (skipDayNext sp).currentDay = (sp.currentDay + 1) % sp.days.length ∧
    (sessionAdvance sp date).currentDay = (sp.currentDay + 1) % sp.days.length ∧
    (skipDayNext^[k] sp).currentDay = (sp.currentDay + k) % sp.days.length ∧
    (skipDayNext^[k] sp).currentDay < sp.days.length ∧
    (skipDayNext^[sp.days.length] sp).currentDay = sp.currentDay := by
  refine ⟨rfl, rfl, iterate_skipDayNext_currentDay sp hc k, ?_, ?_⟩
  · rw [iterate_skipDayNext_currentDay sp hc k]
    exact Nat.mod_lt _ (Nat.lt_of_lt_of_le Nat.zero_lt_one hN)
  · rw [iterate_skipDayNext_currentDay sp hc sp.days.length, Nat.add_mod_right]
    exact Nat.mod_eq_of_lt hc

/-- Fixture: the first built-in split, a 7-day Push/Pull/Legs rotation
starting on day 0. -/
def pplSplit : WorkoutSplit :=
  { id := "1", name := "Push/Pull/Legs",
    days := ["Push", "Pull", "Legs", "Rest", "Push", "Pull", "Legs"],
    currentDay := 0, lastWorkoutDate := none }

/-- Witness for claim C5 at the default Push/Pull/Legs split (7 days,
current day 0) with 3 advances. -/
theorem claim5_witness :
    (skipDayNext pplSplit).currentDay = (0 + 1) % 7 ∧
    (skipDayNext^[3] pplSplit).currentDay = (0 + 3) % 7 ∧
    (skipDayNext^[7] pplSplit).currentDay = 0 := by
  have h := claim5_advance_cycles pplSplit "2026-01-01" 3 (by decide) (by decide)
  exact ⟨h.1, h.2.2.1, h.2.2.2.2⟩

/-- Claim C9: the analytics streak buckets put streak 6 in the base tier
(base color, and a label below the momentum tier), streak 7 in the momentum
tier, streak 14 in the on-fire tier and streak 30 in the champion tier, for
both the color-tier and the label-tier selection. -/
theorem claim9_streak_buckets :
    getStreakColor 6 = "primary" ∧
    getStreakColor 0 = "primary" ∧
    getStreakColor 7 = "accent" ∧
    getStreakColor 14 = "success" ∧
    getStreakColor 30 = "streak-gold" ∧
    getStreakMessage 7 = "Building Momentum! 💪" ∧
    getStreakMessage 14 = "On Fire! 🔥" ∧
    getStreakMessage 30 = "Champion Level! 🏆" ∧
    getStreakMessage 6 ≠ "Building Momentum! 💪" ∧
    getStreakMessage 6 ≠ "On Fire! 🔥" ∧
    getStreakMessage 6 ≠ "Champion Level! 🏆" := by
  decide

/-- Claim C7: an auto-saved payload is returned by getAutoSave exactly when
less than 24 hours (86400000 ms) have elapsed since the save, and a key that
was never auto-saved reads as absent.  At exactly 24 hours, and at 24 hours
plus 1 ms, the payload reads as absent. -/
theorem claim7_autosave_ttl {α : Type} (slots : List (String × AutoSlot α))
    (key : String) (d : α) (t0 t : Nat) (_h : t0 ≤ t) :
    (getAutoSaveSlots (autoSaveSlots slots key d t0) key t
      = if t - t0 < 24 * 60 * 60 * 1000 then some d else none) ∧
    (lookupK slots key = none → getAutoSaveSlots slots key t = none) := by
  constructor
  · have hl : lookupK (autoSaveSlots slots key d t0) key = some ⟨d, t0⟩ := by
      rw [autoSaveSlots, lookupK_setK]; simp
    simp [getAutoSaveSlots, hl]
  · intro h0
    simp [getAutoSaveSlots, h0]

/-- Witness for claim C7: a Nat payload saved at time 1000 read back 1 ms
before the 24-hour boundary, at the boundary, and 1 ms past it, plus a read
of a never-saved key. -/
theorem claim7_witness :
    getAutoSaveSlots (autoSaveSlots ([] : List (String × AutoSlot Nat)) "workout-Push" 42 1000)
      "workout-Push" (1000 + 86399999) = some 42 ∧
    getAutoSaveSlots (autoSaveSlots ([] : List (String × AutoSlot Nat)) "workout-Push" 42 1000)
      "workout-Push" (1000 + 86400000) = none ∧
    getAutoSaveSlots (autoSaveSlots ([] : List (String × AutoSlot Nat)) "workout-Push" 42 1000)
      "workout-Push" (1000 + 86400001) = none ∧
    getAutoSaveSlots ([] : List (String × AutoSlot Nat)) "workout-Push" 17 = none := by
  refine ⟨?_, ?_, ?_, ?_⟩
  · have h1 := (claim7_autosave_ttl ([] : List (String × AutoSlot Nat))
      "workout-Push" 42 1000 (1000 + 86399999) (by omega)).1
    rw [h1]; norm_num
  · have h2 := (claim7_autosave_ttl ([] : List (String × AutoSlot Nat))
      "workout-Push" 42 1000 (1000 + 86400000) (by omega)).1
    rw [h2]; norm_num
  · have h3 := (claim7_autosave_ttl ([] : List (String × AutoSlot Nat))
      "workout-Push" 42 1000 (1000 + 86400001) (by omega)).1
    rw [h3]; norm_num
  · exact (claim7_autosave_ttl ([] : List (String × AutoSlot Nat))
      "workout-Push" 17 0 0 (by omega)).2 rfl

/-- Claim C10: activating a split id that is not in the stored split list
still overwrites the activeSplit reference with the dangling id while
leaving the workoutSplit mirror and every other stored slot unchanged. -/
theorem claim10_setActiveSplit_dangling (st : Store) (l : List WorkoutSplit) (s : String)
    (hl : st.workoutSplits = some l) (hs : ∀ sp ∈ l, sp.id ≠ s) :
    setActiveSplit st s = { st with activeSplit := some s } := by
  have hfind : l.find? (fun sp => sp.id = s) = none := by
    rw [List.find?_eq_none]
    intro sp hsp
    simp [hs sp hsp]
  simp [setActiveSplit, getWorkoutSplits, hl, hfind]

/-- Fixture: a store holding exactly the Push/Pull/Legs split. -/
def soloSplitStore : Store :=
  { workoutSplits := some [pplSplit] }

/-- Witness for claim C10: activating the dangling id "ghost" on a store
whose split list holds only the split with id "1". -/
theorem claim10_witness :
    setActiveSplit soloSplitStore "ghost"
      = { soloSplitStore with activeSplit := some "ghost" } :=
  claim10_setActiveSplit_dangling soloSplitStore [pplSplit] "ghost" rfl (by decide)

/-- Projection of a tracker exercise to everything except its set list. -/
def exerciseFrame (ex : TExercise) :
    String × String × Nat × Option ℚ × Option Nat :=
  (ex.id, ex.name, ex.defaultSets, ex.lastWeight, ex.lastReps)

/-- Claim C6: completing a set whose weight or reps is zero is rejected and
mutates nothing (in particular the completed flag and the rest countdown are
untouched); completing a set with positive weight and reps marks exactly the
addressed set completed, starts the 90-unit rest countdown, and changes no
other set, no other exercise field, and not the exercise cursor. -/
theorem claim6_completeSet (tr : TrackerState) (e i : Nat) (ex : TExercise) (s : TSet)
    (hex : tr.exercises[e]? = some ex) (hset : ex.sets[i]? = some s) :
    ((s.weight = 0 ∨ s.reps = 0) → completeSet tr e i = tr) ∧
    (s.weight ≠ 0 → s.reps ≠ 0 →
      (completeSet tr e i).restTimer = 90 ∧
      (completeSet tr e i).isResting = true ∧
      (completeSet tr e i).currentExerciseIndex = tr.currentExerciseIndex ∧
      ((completeSet tr e i).exercises[e]?.bind (fun x => x.sets[i]?))
        = some { s with completed := true } ∧
      (∀ (e' i' : Nat), ¬ (e' = e ∧ i' = i) →
        ((completeSet tr e i).exercises[e']?.bind (fun x => x.sets[i']?))
          = (tr.exercises[e']?.bind (fun x => x.sets[i']?))) ∧
      (∀ (e' : Nat), ((completeSet tr e i).exercises[e']?.map exerciseFrame)
          = (tr.exercises[e']?.map exerciseFrame))) := by
  constructor
  · intro hz
    simp only [completeSet, hex, hset]
    rw [if_pos hz]
  · intro hw hr
    have hne : ¬ (s.weight = 0 ∨ s.reps = 0) := by
      rintro (h | h)
      · exact hw h
      · exact hr h
    have hred : completeSet tr e i =
        { tr with
          exercises := tr.exercises.mapIdx (fun eIndex x =>
            if eIndex = e then
              { x with sets := x.sets.mapIdx (fun sIndex y =>
                  if sIndex = i then { y with completed := true } else y) }
            else x),
          restTimer := 90,
          isResting := true } := by
      simp only [completeSet, hex, hset]
      rw [if_neg hne]
    refine ⟨by rw [hred], by rw [hred], by rw [hred], ?_, ?_, ?_⟩
    · rw [hred]
      simp [List.getElem?_mapIdx, hex, hset]
    · intro e' i' hni
      rw [hred]
      by_cases he : e' = e
      · subst he
        have hi : ¬ i' = i := fun hii => hni ⟨rfl, hii⟩
        simp [List.getElem?_mapIdx, hex, hi]
      · simp [List.getElem?_mapIdx, he]
    · intro e'
      rw [hred]
      by_cases he : e' = e
      · subst he
        simp [List.getElem?_mapIdx, hex, exerciseFrame]
      · simp [List.getElem?_mapIdx, he]

/-- Fixture: a tracker exercise with one zero-valued set and one filled
set. -/
def c6Exercise : TExercise :=
  { id := "bench-press", name := "Bench Press", defaultSets := 2,
    sets := [{ id := "set-0-0", weight := 0, reps := 0, completed := false },
             { id := "set-0-1", weight := 100, reps := 5, completed := false }] }

/-- Fixture: a tracker session holding only that exercise, not resting. -/
def c6Tracker : TrackerState :=
  { exercises := [c6Exercise], currentExerciseIndex := 0,
    restTimer := 0, isResting := false }

/-- Witness for claim C6: completing the zero set is rejected outright;
completing the 100 kg by 5 set marks it completed and starts the 90-unit
countdown. -/
theorem claim6_witness :
    completeSet c6Tracker 0 0 = c6Tracker ∧
    (completeSet c6Tracker 0 1).restTimer = 90 ∧
    (completeSet c6Tracker 0 1).isResting = true ∧
    ((completeSet c6Tracker 0 1).exercises[0]?.bind (fun x => x.sets[1]?))
      = some { id := "set-0-1", weight := 100, reps := 5, completed := true } := by
  have h0 := claim6_completeSet c6Tracker 0 0 c6Exercise
    { id := "set-0-0", weight := 0, reps := 0, completed := false } rfl rfl
  have h1 := claim6_completeSet c6Tracker 0 1 c6Exercise
    { id := "set-0-1", weight := 100, reps := 5, completed := false } rfl rfl
  have hs := h1.2 (by norm_num) (by norm_num)
  exact ⟨h0.1 (Or.inl rfl), hs.1, hs.2.1, hs.2.2.2.1⟩

/-! Claim C8: the history write loop of saveWorkoutSession. -/

/-- Pairs (exercise name, history entry) contributed by one session exercise
to the history write loop, in processing order: one pair per completed set. -/
def entriesOf (date : String) (ex : SessExercise) : List (String × HistEntry) :=
  (ex.sets.filter (fun s => s.completed)).map (fun s => (ex.name, ⟨s.weight, s.reps, date⟩))

/-- All pairs a session's write loop processes, in processing order. -/
def completedEntries (session : WorkoutSession) : List (String × HistEntry) :=
  session.exercises.flatMap (entriesOf session.date)

/-- Sequential overwrite of a binding list into the history map. -/
def applyAll (hist : List (String × HistEntry)) (l : List (String × HistEntry)) :
    List (String × HistEntry) :=
  l.foldl (fun h p => setK h p.1 p.2) hist

/-- Spec-side selection: the last binding for a name in a pair list. -/
def lastFor : List (String × HistEntry) → String → Option HistEntry
  | [], _ => none
  | p :: rest, k =>
      match lastFor rest k with
      | some e => some e
      | none => if p.1 = k then some p.2 else none

theorem applyAll_append (hist : List (String × HistEntry))
    (l1 l2 : List (String × HistEntry)) :
    applyAll hist (l1 ++ l2) = applyAll (applyAll hist l1) l2 := by
  simp [applyAll, List.foldl_append]

theorem setFold_eq_applyAll (date name : String) (sets : List SessSet)
    (h : List (String × HistEntry)) :
    sets.foldl
      (fun h2 s => if s.completed then setK h2 name ⟨s.weight, s.reps, date⟩ else h2) h
    = applyAll h
        ((sets.filter (fun s => s.completed)).map (fun s => (name, ⟨s.weight, s.reps, date⟩))) := by
  induction sets generalizing h with
  | nil => rfl
  | cons s rest ih =>
      by_cases hc : s.completed = true
      · rw [List.foldl_cons, if_pos hc, List.filter_cons_of_pos hc, List.map_cons]
        exact ih (setK h name ⟨s.weight, s.reps, date⟩)
      · rw [List.foldl_cons, if_neg hc, List.filter_cons_of_neg hc]
        exact ih h

theorem historyFold_eq_applyAll (date : String) (exs : List SessExercise)
    (hist : List (String × HistEntry)) :
    exs.foldl
      (fun h ex =>
        ex.sets.foldl
          (fun h2 s => if s.completed then setK h2 ex.name ⟨s.weight, s.reps, date⟩ else h2)
          h)
      hist
    = applyAll hist (exs.flatMap (entriesOf date)) := by
  induction exs generalizing hist with
  | nil => rfl
  | cons ex rest ih =>
      rw [List.foldl_cons, List.flatMap_cons, applyAll_append,
        setFold_eq_applyAll date ex.name ex.sets hist]
      exact ih (applyAll hist (entriesOf date ex))

theorem lookupK_applyAll (hist l : List (String × HistEntry)) (k : String) :
    lookupK (applyAll hist l) k
      = match lastFor l k with
        | some e => some e
        | none => lookupK hist k := by
  induction l generalizing hist with
  | nil => rfl
  | cons p rest ih =>
      have hstep : applyAll hist (p :: rest) = applyAll (setK hist p.1 p.2) rest := rfl
      rw [hstep, ih]
      cases hl : lastFor rest k with
      | some e => simp [lastFor, hl]
      | none =>
          rw [lookupK_setK]
          by_cases hp : p.1 = k
          · simp [lastFor, hl, hp]
          · simp [lastFor, hl, hp]

/-- Claim C8: finalizing a session overwrites each exercise's history entry
once per completed set in processing order, so the last completed set
processed for an exercise name (not necessarily the heaviest) becomes that
name's recorded history entry, and a name with no completed set keeps its
previous history entry. -/
theorem claim8_history_last_write_wins (hist : List (String × HistEntry))
    (session : WorkoutSession) (name : String) :
    lookupK (sessionHistoryUpdate hist session) name
      = match lastFor (completedEntries session) name with
        | some e => some e
        | none => lookupK hist name := by
  have hfold : sessionHistoryUpdate hist session
      = applyAll hist (completedEntries session) :=
    historyFold_eq_applyAll session.date session.exercises hist
  rw [hfold, lookupK_applyAll]

/-- Claim C4: the delete-split operation as exposed by the manager is
rejected (state fully unchanged) when exactly one split remains, and when
the deleted split is the active one it clears the activeSplit reference and
the workoutSplit mirror entirely. -/
theorem claim4_deleteSplit (ms : ManagerState) (splitId : String) :
    (ms.splits.length = 1 → deleteSplitButton ms splitId = ms) ∧
    (ms.splits.length ≠ 1 → ms.activeSplit = some splitId →
      (deleteSplitButton ms splitId).store.activeSplit = none ∧
      (deleteSplitButton ms splitId).store.workoutSplit = none ∧
      (deleteSplitButton ms splitId).activeSplit = none) := by
  constructor
  · intro h1
    simp [deleteSplitButton, h1]
  · intro h1 h2
    simp [deleteSplitButton, h1, deleteSplitRaw, h2, saveWorkoutSplits]

/-- Fixture: manager holding only the Push/Pull/Legs split, active. -/
def soloManager : ManagerState :=
  { splits := [pplSplit], activeSplit := some "1",
    store := { workoutSplits := some [pplSplit], activeSplit := some "1",
               workoutSplit := some pplSplit } }

/-- Fixture: manager holding the three default splits, the first active. -/
def threeManager : ManagerState :=
  { splits := defaultSplits, activeSplit := some "1",
    store := { workoutSplits := some defaultSplits, activeSplit := some "1",
               workoutSplit := some pplSplit } }

/-- Witness for claim C4: deleting the last remaining split is a no-op, and
deleting the active split out of three clears the reference and mirror. -/
theorem claim4_witness :
    deleteSplitButton soloManager "1" = soloManager ∧
    (deleteSplitButton threeManager "1").store.activeSplit = none ∧
    (deleteSplitButton threeManager "1").store.workoutSplit = none := by
  have h1 := (claim4_deleteSplit soloManager "1").1 (by decide)
  have h2 := (claim4_deleteSplit threeManager "1").2 (by decide) rfl
  exact ⟨h1, h2.1, h2.2.1⟩

/-- Fixture: a stored Push template whose exercise list the user emptied. -/
def moddedPush : WorkoutTemplate :=
  { id := "push", name := "Push", exercises := [] }

/-- Fixture: a store whose template mapping holds only the emptied Push. -/
def moddedStore : Store :=
  { workoutTemplates := some [("Push", moddedPush)] }

/-- Claim C3 evaluation: resetToDefault on a modified Push template re-saves
the modified template unchanged; the built-in default Push (five exercises)
is never restored, contradicting the reset-to-original-defaults claim. -/
theorem claim3_reset_keeps_modified :
    (getWorkoutTemplate (resetToDefault moddedStore "Push" 0) "Push").1 = some moddedPush ∧
    lookupK defaultTemplates "Push" ≠ some moddedPush := by
  decide

/-- Fixture: a store with one split (id 1, 7 days, day 0) that is active,
mirrored, and a zero streak. -/
def c1Store : Store :=
  { workoutSplits := some [pplSplit], activeSplit := some "1",
    workoutSplit := some pplSplit, workoutStreak := some 0 }

/-- Fixture: a tracker exercise whose single set (100 kg by 5) is
completed. -/
def benchDone : TExercise :=
  { id := "bench-press", name := "Bench Press", defaultSets := 1,
    sets := [{ id := "set-0-0", weight := 100, reps := 5, completed := true }] }

/-- Fixture: an in-progress session holding only that exercise. -/
def c1Tracker : TrackerState :=
  { exercises := [benchDone], currentExerciseIndex := 0,
    restTimer := 0, isResting := false }

/-- Claim C1 evaluation: finalizing the session increments the streak by
exactly 1 and advances the canonical split list entry by exactly 1, but the
denormalized workoutSplit mirror ends at day 2 — it is advanced twice, once
by updateSplit inside saveWorkout and once more by the completion callback,
not exactly once as claimed. -/
theorem claim1_mirror_double_advance :
    getStreak (completePipeline c1Store c1Tracker "session-1" "2026-01-02" "Push") = 1 ∧
    ((completePipeline c1Store c1Tracker "session-1" "2026-01-02" "Push").workoutSplits.map
      (fun l => l.map (fun sp => sp.currentDay))) = some [1] ∧
    ((completePipeline c1Store c1Tracker "session-1" "2026-01-02" "Push").workoutSplit.map
      (fun sp => sp.currentDay)) = some 2 := by
  decide

/-- Claim C2 counterexample: finalizing a session whose completed Bench
Press set is 100 kg by 5 writes the history entry under the exercise-NAME
key, but the analytics read side scans the lastWorkout-NAME keys, so the
Progress view consumes no record at all and displays no 117 estimate, even
though the Epley formula itself yields 117. -/
theorem claim2_counterexample :
    getExerciseHistory (completePipeline c1Store c1Tracker "session-1" "2026-01-02" "Push")
      "Bench Press" = some ⟨100, 5, "2026-01-02"⟩ ∧
    loadLifts (completePipeline c1Store c1Tracker "session-1" "2026-01-02" "Push") = [] ∧
    calculateOneRepMax 100 5 = 117 := by
  refine ⟨rfl, rfl, ?_⟩
  norm_num [calculateOneRepMax, round_eq]

/-- Claim C2 amended: the Epley estimate for 100 kg by 5 is 117, and the
record the analytics read side consumes is the lastWorkout-NAME entry
written by the legacy tracker finalize path (last completed set per
exercise), not the exercise-NAME history entry: a finalize through the
legacy path surfaces the 100 kg by 5 record in the Progress view, while
saveExerciseHistory writes are invisible to the analytics read side. -/
theorem claim2_amended_legacy_path (st : Store) (date : String) :
    calculateOneRepMax 100 5 = 117 ∧
    (loadLifts (legacySaveWorkout st c1Tracker.exercises date)).find?
        (fun p => p.1 = "Bench Press") = some ("Bench Press", ⟨100, 5, date⟩) ∧
    (∀ (n : String) (e : HistEntry), loadLifts (saveExerciseHistory st n e) = loadLifts st) := by
  refine ⟨by norm_num [calculateOneRepMax, round_eq], ?_, fun n e => rfl⟩
  have hlast : (legacySaveWorkout st c1Tracker.exercises date).lastWorkout
      = setK st.lastWorkout "Bench Press" ⟨100, 5, date⟩ := rfl
  have hhead : (lookupK (setK st.lastWorkout "Bench Press"
        (⟨100, 5, date⟩ : HistEntry)) "Bench Press").map
        (fun d => ("Bench Press", d)) = some ("Bench Press", ⟨100, 5, date⟩) := by
    rw [lookupK_setK, if_pos rfl]
    rfl
  rw [loadLifts, hlast]
  simp only [progressExercises, List.filterMap_cons, hhead]
  rw [List.find?_cons_of_pos _ (by simp)]

/-- Claim C3 amended: resetToDefault re-saves the template currently stored
under the workout-type name, so the stored template content is unchanged for
every name (beyond the first-read materialization of the defaults that any
template read performs); it therefore restores the original built-in
exercise list only when the stored entry never diverged from it, and for a
name absent from the stored mapping it does nothing. -/
theorem claim3_amended_reset_noop (st : Store) (name : String) (now : Nat) (k : String) :
    (getWorkoutTemplate (resetToDefault st name now) k).1
      = (getWorkoutTemplate st k).1 := by
  rcases hT : st.workoutTemplates with _ | ts
  · cases hl : lookupK defaultTemplates name with
    | none =>
        simp [resetToDefault, getWorkoutTemplates, getWorkoutTemplate, hT, hl]
    | some tpl =>
        simp only [resetToDefault, getWorkoutTemplates, getWorkoutTemplate,
          updateWorkoutTemplate, saveWorkoutTemplates, saveTemplateOp,
          autoSaveStore, hT, hl]
        rw [lookupK_setK]
        by_cases hk : name = k
        · subst hk
          simp [hl]
        · simp [hk]
  · cases hl : lookupK ts name with
    | none =>
        simp [resetToDefault, getWorkoutTemplates, getWorkoutTemplate, hT, hl]
    | some tpl =>
        simp only [resetToDefault, getWorkoutTemplates, getWorkoutTemplate,
          updateWorkoutTemplate, saveWorkoutTemplates, saveTemplateOp,
          autoSaveStore, hT, hl]
        rw [lookupK_setK]
        by_cases hk : name = k
        · subst hk
          simp [hl]
        · simp [hk]

end RepsAndRest
